import Mathlib

/-
Shallow embedding of the interactive-component dispatch registry of
`discord/ui/view.py` and `discord/ui/select.py`.

Modelling conventions:
- Python `dict` is modelled as an insertion-ordered association list
  (`Dict`): assignment updates an existing key in place or appends,
  deletion filters, lookup returns the first entry with the key.
- `time.monotonic()` is an abstract clock passed explicitly as a `Nat`
  argument `now`; `timeout` is `Option Nat` (`none` = Python `None`),
  and Python's truthiness test `if self.timeout:` treats `some 0` as
  falsy exactly like `0.0`.
- Python exceptions are modelled with `Except String`; a raising path
  returns `.error`.
- Object identity of an `Item` (its bound callback) is modelled by the
  `handler` tag: items synthesized from a component descriptor carry
  `handler = none`, items created with a view's callback carry `some n`.
- Coroutine scheduling is out of scope; `ViewStore.dispatch` returns the
  task it would schedule (if any) instead of spawning it, and the body of
  `View._scheduled_task` is modelled as the pure function `scheduledTask`
  over the interaction's response-channel state.
-/

namespace DiscordUI

/-! ## Insertion-ordered dictionary (Python `dict`) -/

abbrev Dict (α β : Type) := List (α × β)

/-- `d[k]` as an `Option`: first entry whose key equals `k` (keys built by
`Dict.set` are unique, so this is the Python lookup). -/
def Dict.find {α β : Type} [DecidableEq α] (d : Dict α β) (k : α) : Option β :=
  match d with
  | [] => none
  | (k', v) :: rest => if k' = k then some v else Dict.find rest k

/-- `d[k] = v`: replace the value at an existing key in place, otherwise
append at the end (Python insertion order). -/
def Dict.set {α β : Type} [DecidableEq α] (d : Dict α β) (k : α) (v : β) : Dict α β :=
  match d with
  | [] => [(k, v)]
  | (k', v') :: rest => if k' = k then (k, v) :: rest else (k', v') :: Dict.set rest k v

/-- `del d[k]` for unique-keyed dicts: drop every entry with key `k`. -/
def Dict.erase {α β : Type} [DecidableEq α] (d : Dict α β) (k : α) : Dict α β :=
  d.filter (fun p => p.1 ≠ k)

/-- `d.pop(k)` with no default: `KeyError` when the key is absent. -/
def Dict.pop {α β : Type} [DecidableEq α] (d : Dict α β) (k : α) : Except String (Dict α β) :=
  match d.find k with
  | none => .error "KeyError"
  | some _ => .ok (d.erase k)

/-- The keys of the dict are pairwise distinct; every dict reachable by
`Dict.set` / `Dict.erase` from the empty dict satisfies this. -/
def Dict.WF {α β : Type} (d : Dict α β) : Prop := (d.map Prod.fst).Nodup

/-! ## `discord/ui/select.py` -/

/-- `discord.SelectOption`, opaque payload as far as this layer cares. -/
structure SelectOption where
  label : String
  value : String
  deriving DecidableEq, Repr

/-- The `SelectMenu` underlying component held by a `Select`. -/
structure SelectMenu where
  custom_id : String
  placeholder : Option String
  min_values : Int
  max_values : Int
  options : List SelectOption
  deriving DecidableEq, Repr

/-- `discord.ui.Select`: underlying component plus `_selected_values` and
`group_id` (the random default `custom_id` is passed in explicitly). -/
structure Select where
  underlying : SelectMenu
  selected_values : List String
  group_id : Option Nat
  deriving DecidableEq, Repr

/-- `Select.append_option`: raises `ValueError` when
`len(self._underlying.options) > 25`, else appends. -/
def Select.append_option (s : Select) (o : SelectOption) : Except String Select :=
  if s.underlying.options.length > 25 then
    .error "maximum number of options already provided"
  else
    .ok { s with underlying := { s.underlying with options := s.underlying.options ++ [o] } }

/-- The part of an interaction event this layer inspects:
`interaction.data.get('values', [])` and the response channel. -/
structure Interaction where
  data_values : Option (List String)
  responded : Bool
  deriving DecidableEq, Repr

/-- `Select.refresh_state`: `self._selected_values = data.get('values', [])`. -/
def Select.refresh_state (s : Select) (i : Interaction) : Select :=
  { s with selected_values := i.data_values.getD [] }

/-! ## Items and components (`discord/ui/view.py` plumbing) -/

/-- `ComponentType.value` constants used by the embedding:
`action_row = 1`, `button = 2`, `select = 3`. -/
def sysMaxsize : Nat := 2 ^ 63 - 1

/-- The in-process `Item` (`discord/ui/item.py` base class is not in the
excerpt; the fields below are exactly what `view.py` reads from an item:
`item.type.value`, `item.custom_id`, `item.group_id`, `item.is_dispatchable()`,
`item.callback` (the `handler` identity tag; `none` for an item synthesized
from a component, which carries no view callback), `item.refresh_state` /
`refresh_component` state (`selected_values`, opaque `payload`). -/
structure Item where
  type : Nat
  custom_id : String
  group_id : Option Nat
  dispatchable : Bool
  handler : Option Nat
  selected_values : List String
  payload : Nat
  deriving DecidableEq, Repr

/-- `item.is_dispatchable()`. -/
def Item.is_dispatchable (it : Item) : Bool := it.dispatchable

/-- `Item.refresh_state` (the `Select` implementation from `select.py`,
lifted to the item model): overwrite `_selected_values` from
`interaction.data.get('values', [])`. -/
def Item.refresh_state (it : Item) (i : Interaction) : Item :=
  { it with selected_values := i.data_values.getD [] }

/-- A decoded non-row component descriptor. `custom_id = none` models a
component whose `custom_id` attribute is missing or `None`, which can never
match a registered item key (the `AttributeError` / `KeyError` branch of
`View.refresh`). -/
structure RawComponent where
  type : Nat
  custom_id : Option String
  payload : Nat
  deriving DecidableEq, Repr

/-- A decoded component: either an `ActionRow` wrapper or a leaf. -/
inductive Component where
  | actionRow (children : List RawComponent)
  | leaf (c : RawComponent)
  deriving DecidableEq, Repr

/-- `_walk_all_components`: expand action rows into their children, pass
everything else through. -/
def walkAllComponents (components : List Component) : List RawComponent :=
  components.flatMap fun
    | .actionRow children => children
    | .leaf c => [c]

/-- Modelled from the spec: `_component_to_item` delegates to
`Button.from_component` / `Item.from_component`, neither of which is in the
excerpt; per the spec it is a "descriptor → Element" factory keyed by kind
whose output is a brand-new element with no handler attached
(`handler = none`), dispatchable only for the interactive kinds. -/
def componentToItem (rc : RawComponent) : Item :=
  { type := rc.type
    custom_id := rc.custom_id.getD ""
    group_id := none
    dispatchable := rc.type = 2 ∨ rc.type = 3
    handler := none
    selected_values := []
    payload := rc.payload }

/-- `Item.refresh_component` (the `Select` implementation replaces the whole
underlying component): take the component's identity fields and payload,
keep the handler, the selection state and the group. -/
def Item.refresh_component (it : Item) (rc : RawComponent) : Item :=
  { it with
    type := rc.type
    custom_id := rc.custom_id.getD it.custom_id
    payload := rc.payload }

/-! ## `View` -/

/-- `discord.ui.View`: the fields the registry and the claims read.
`_stopped`, `_timeout_handler` and `_cancel_callback` are modelled
separately (see `FutureState` and `viewStop`). -/
structure View where
  id : Nat
  timeout : Option Nat
  children : List Item
  deriving DecidableEq, Repr

/-- `View._expires_at`: `if self.timeout: return time.monotonic() + self.timeout`;
note Python truthiness sends both `None` and `0.0` to `None`. -/
def View.expires_at (v : View) (now : Nat) : Option Nat :=
  match v.timeout with
  | some t => if t ≠ 0 then some (now + t) else none
  | none => none

/-- `View.__init_subclass__`: collect the declared children and raise
`TypeError` when there are more than 25. -/
def viewInitSubclassCheck (declared : List Item) : Except String (List Item) :=
  if declared.length > 25 then
    .error "View cannot have more than 25 children"
  else
    .ok declared

/-- `View.add_item`: raises `ValueError` when `len(self.children) > 25`,
else appends (the `isinstance` `TypeError` branch is unreachable in the
typed model). -/
def View.add_item (v : View) (item : Item) : Except String View :=
  if v.children.length > 25 then
    .error "maximum number of children exceeded"
  else
    .ok { v with children := v.children ++ [item] }

/-- The sort key of `View.to_components`: `group_id`, with `None` mapped to
`sys.maxsize`. -/
def sortKey (it : Item) : Nat :=
  match it.group_id with
  | none => sysMaxsize
  | some g => g

/-- Insert before the first element with a strictly greater key (keeps
insertion order among equal keys). -/
def insertStable (it : Item) : List Item → List Item
  | [] => [it]
  | x :: xs => if sortKey it < sortKey x then it :: x :: xs else x :: insertStable it xs

/-- Python's stable `sorted(children, key=key)`. -/
def stableSort (l : List Item) : List Item :=
  l.foldl (fun acc it => insertStable it acc) []

/-- `itertools.groupby` over the sorted list: maximal runs of equal keys. -/
def groupRuns : List Item → List (List Item)
  | [] => []
  | x :: xs =>
    match groupRuns xs with
    | [] => [[x]]
    | [] :: gs => [x] :: [] :: gs
    | (y :: g) :: gs =>
      if sortKey x = sortKey y then (x :: y :: g) :: gs else [x] :: (y :: g) :: gs

/-- One group to rows: a single row when the group fits in 5, otherwise
slices `group[index : index + 5]` for `index in range(0, len(group), 5)`
(the multiples of 5 below `len(group)`). -/
def chunkGroup (l : List Item) : List (List Item) :=
  if l.length ≤ 5 then [l]
  else ((List.range l.length).filter fun i => i % 5 = 0).map fun i => (l.drop i).take 5

/-- `View.to_components`: sort by group key, group consecutive equal keys,
chunk each group into rows of at most 5 (each row's serialization via
`to_component_dict` is out of scope, so rows are kept as item lists). -/
def View.to_components (v : View) : List (List Item) :=
  (groupRuns (stableSort v.children)).flatMap chunkGroup

/-! ## `View.refresh` (reconciliation) -/

/-- The `old_state` dict comprehension: dispatchable children keyed by
`(item.type.value, item.custom_id)` (later duplicates overwrite earlier). -/
def oldState (children : List Item) : Dict (Nat × String) Item :=
  (children.filter fun it => it.is_dispatchable).foldl
    (fun d it => d.set (it.type, it.custom_id) it) []

/-- The body of the `for component in _walk_all_components(components)` loop:
reuse the matching old item (refreshing its component) or synthesize a new
one on `KeyError` / `AttributeError`. -/
def refreshStep (old : Dict (Nat × String) Item) (rc : RawComponent) : Item :=
  match rc.custom_id with
  | none => componentToItem rc
  | some cid =>
    match old.find (rc.type, cid) with
    | some older => older.refresh_component rc
    | none => componentToItem rc

/-- `View.refresh`: build the new children list and assign it in one go
(`self.children = children`). -/
def View.refresh (v : View) (components : List Component) : View :=
  { v with children := (walkAllComponents components).map (refreshStep (oldState v.children)) }

/-! ## `View.stop` and the completion future -/

/-- `asyncio.Future` as far as `View._stopped` uses it. -/
structure FutureState where
  done : Bool
  result : Option Bool
  deriving DecidableEq, Repr

/-- `Future.set_result`: raises `InvalidStateError` on an already-resolved
future. -/
def FutureState.set_result (f : FutureState) (b : Bool) : Except String FutureState :=
  if f.done then .error "InvalidStateError" else .ok { done := true, result := some b }

/-- The body of `View._scheduled_task`, as a function of the outcome of
`interaction_check` (an `Except` so a raised error is a value), of the
handler's effect on the response channel, and of the initial response
channel. Returns whether `item.callback` ran and the final channel state. -/
structure Response where
  responded : Bool
  defer_count : Nat
  deriving DecidableEq, Repr

/-- `interaction.response.defer()`: one deferred acknowledgement, and the
channel becomes responded. -/
def Response.defer (r : Response) : Response :=
  { responded := true, defer_count := r.defer_count + 1 }

/-- `View._scheduled_task`:
`try: allow = await self.interaction_check(...) except: allow = False`;
return early when not allowed; otherwise run the callback and defer
exactly when the response channel is still unresponded. -/
def scheduledTask (check : Except Unit Bool) (callback : Response → Response)
    (r : Response) : Bool × Response :=
  let allow := match check with | .ok b => b | .error _ => false
  if !allow then (false, r)
  else
    let r' := callback r
    if !r'.responded then (true, r'.defer) else (true, r')

/-! ## `ViewStore` -/

/-- A registry entry: `(View, Item, Optional[float] expiry)`. -/
abbrev StoreEntry := View × Item × Option Nat

/-- `ViewStore`: the `(component_type, custom_id) → (view, item, expiry)`
map and the `message_id → view` map (the `ConnectionState` back-reference
is opaque to every modelled operation). -/
structure ViewStore where
  views : Dict (Nat × String) StoreEntry
  synced_message_views : Dict Nat View
  deriving DecidableEq, Repr

/-- `ViewStore.__verify_integrity`: drop every entry whose expiry is a
time already reached (`expiry is not None and now >= expiry`). -/
def ViewStore.verify_integrity (s : ViewStore) (now : Nat) : ViewStore :=
  { s with
    views := s.views.filter fun p =>
      match p.2.2.2 with
      | none => true
      | some expiry => now < expiry }

/-- `ViewStore.add_view`: sweep, compute the expiry once, then store one
entry per dispatchable child (`_start_listening` only arms the timeout
timer and the cancel callback, which live outside the registry state), and
record the message association when a message id is given. There is no
collision check: assignment overwrites an existing key. -/
def ViewStore.add_view (s : ViewStore) (now : Nat) (view : View)
    (message_id : Option Nat) : ViewStore :=
  let s := s.verify_integrity now
  let expiry := view.expires_at now
  let views := view.children.foldl
    (fun d item =>
      if item.is_dispatchable then d.set (item.type, item.custom_id) (view, item, expiry) else d)
    s.views
  let smv :=
    match message_id with
    | some m => s.synced_message_views.set m view
    | none => s.synced_message_views
  { views := views, synced_message_views := smv }

/-- Delete the first message association whose view has this id, then stop
(the `break` in the loop over `_synced_message_views`). -/
def removeSyncedMessage (smv : Dict Nat View) (view_id : Nat) : Dict Nat View :=
  match smv with
  | [] => []
  | (k, v) :: rest =>
    if v.id = view_id then rest else (k, v) :: removeSyncedMessage rest view_id

/-- `ViewStore.remove_view`: `pop` (no default) each dispatchable child's
key — a missing key raises `KeyError` — then drop the message association
pointing at this view, if any. -/
def ViewStore.remove_view (s : ViewStore) (view : View) : Except String ViewStore := do
  let views ← view.children.foldlM
    (fun d item => if item.is_dispatchable then d.pop (item.type, item.custom_id) else .ok d)
    s.views
  .ok { views := views, synced_message_views := removeSyncedMessage s.synced_message_views view.id }

/-- `View.stop` running against a store: resolve the completion future with
`False` (raises when already resolved), cancel the timer (no registry
effect), and — when `_start_listening` installed the cancel callback — run
`store.remove_view(view)`. -/
def viewStop (s : ViewStore) (v : View) (fut : FutureState)
    (has_cancel_callback : Bool) : Except String (ViewStore × FutureState) := do
  let fut' ← fut.set_result false
  let s' ← if has_cancel_callback then s.remove_view v else .ok s
  .ok (s', fut')

/-- The result of `ViewStore.dispatch`: the new registry state and the
task handed to `asyncio.create_task` (if any), carrying the view, the
item (already state-refreshed, as in the source where the stored item is
the very object that `refresh_state` mutates) and the interaction. -/
structure DispatchResult where
  store : ViewStore
  scheduled : Option (View × Item × Interaction)
  deriving DecidableEq, Repr

/-- `ViewStore.dispatch`: lazy sweep, key lookup (miss = silent drop),
then refresh the entry's expiry to `view._expires_at` evaluated now,
refresh the item's selection state, and schedule the view's task. -/
def ViewStore.dispatch (s : ViewStore) (now : Nat) (component_type : Nat)
    (custom_id : String) (interaction : Interaction) : DispatchResult :=
  let s := s.verify_integrity now
  let key := (component_type, custom_id)
  match s.views.find key with
  | none => ⟨s, none⟩
  | some (view, item, _) =>
    let item' := item.refresh_state interaction
    ⟨{ s with views := s.views.set key (view, item', view.expires_at now) },
      some (view, item', interaction)⟩

/-- `ViewStore.is_message_tracked`. -/
def ViewStore.is_message_tracked (s : ViewStore) (message_id : Nat) : Bool :=
  (s.synced_message_views.find message_id).isSome

/-- `ViewStore.update_from_message`: `self._synced_message_views[message_id]`
raises `KeyError` when the message is untracked; otherwise refresh the
associated view with the decoded components and return it. -/
def ViewStore.update_from_message (s : ViewStore) (message_id : Nat)
    (components : List Component) : Except String View :=
  match s.synced_message_views.find message_id with
  | none => .error "KeyError"
  | some view => .ok (view.refresh components)

/-! ## Dictionary lemmas -/

theorem Dict.find_set {α β : Type} [DecidableEq α] (d : Dict α β) (k k' : α) (v : β) :
    (d.set k' v).find k = if k' = k then some v else d.find k := by
  induction d with
  | nil => simp [Dict.set, Dict.find]
  | cons p rest ih =>
    obtain ⟨a, b⟩ := p
    by_cases hak : a = k'
    · subst hak
      simp only [Dict.set, if_pos rfl, Dict.find]
      by_cases h : a = k
      · simp [h]
      · simp [h, Dict.find]
    · simp only [Dict.set, if_neg hak, Dict.find]
      by_cases h : a = k
      · subst h
        have : k' ≠ a := fun he => hak he.symm
        simp [this]
      · simp [h, ih]

theorem Dict.find_eq_none_of_not_mem {α β : Type} [DecidableEq α] (d : Dict α β) (k : α)
    (h : k ∉ d.map Prod.fst) : d.find k = none := by
  induction d with
  | nil => rfl
  | cons p rest ih =>
    simp only [List.map_cons, List.mem_cons] at h
    push_neg at h
    simp only [Dict.find]
    rw [if_neg (fun he => h.1 he.symm)]
    exact ih h.2

theorem Dict.not_mem_keys_filter {α β : Type} (d : Dict α β) (p : α × β → Bool) (k : α)
    (h : k ∉ d.map Prod.fst) : k ∉ (List.filter p d).map Prod.fst := by
  intro hm
  apply h
  obtain ⟨x, hx, hfst⟩ := List.mem_map.mp hm
  exact List.mem_map.mpr ⟨x, List.mem_of_mem_filter hx, hfst⟩

theorem Dict.find_filter {α β : Type} [DecidableEq α] (d : Dict α β)
    (p : α × β → Bool) (k : α) (v : β) (hw : d.WF) (h : d.find k = some v) :
    Dict.find (List.filter p d) k = if p (k, v) then some v else none := by
  induction d with
  | nil => simp [Dict.find] at h
  | cons q rest ih =>
    obtain ⟨a, b⟩ := q
    simp only [Dict.WF, List.map_cons, List.nodup_cons] at hw
    simp only [Dict.find] at h
    by_cases hak : a = k
    · subst hak
      rw [if_pos rfl] at h
      cases h
      by_cases hp : p (a, v)
      · rw [List.filter_cons_of_pos hp]
        simp [Dict.find, hp]
      · rw [List.filter_cons_of_neg (by simpa using hp)]
        rw [if_neg hp]
        exact Dict.find_eq_none_of_not_mem _ a
          (Dict.not_mem_keys_filter rest p a hw.1)
    · rw [if_neg hak] at h
      have hres := ih hw.2 h
      by_cases hpb : p (a, b)
      · rw [List.filter_cons_of_pos hpb]
        simpa [Dict.find, hak] using hres
      · rw [List.filter_cons_of_neg (by simpa using hpb)]
        exact hres

/-! ## Concrete fixtures -/

/-- A dispatchable button-kind item with handler tag `n`. -/
def mkButton (n : Nat) (cid : String) : Item :=
  { type := 2, custom_id := cid, group_id := none, dispatchable := true,
    handler := some n, selected_values := [], payload := 0 }

def viewStoreEmpty : ViewStore := ⟨[], []⟩

def cexView1 : View := ⟨1, some 180, [mkButton 1 "shared"]⟩

def cexView2 : View := ⟨2, some 180, [mkButton 2 "shared"]⟩

def storeWithV1 : ViewStore := viewStoreEmpty.add_view 0 cexView1 none

def sel25 : Select := ⟨⟨"cid", none, 1, 1, List.replicate 25 ⟨"l", "v"⟩⟩, [], none⟩

def sel26 : Select := ⟨⟨"cid", none, 1, 1, List.replicate 26 ⟨"l", "v"⟩⟩, [], none⟩

def opt26 : SelectOption := ⟨"x", "y"⟩

def view25 : View := ⟨7, some 180, (List.range 25).map fun n => mkButton n (toString n)⟩

def declared26 : List Item := (List.range 26).map fun n => mkButton n (toString n)

/-! ## Claims -/

/-- C1 counterexample: `add_view` performs no collision check. Registering
`cexView2`, whose only dispatchable element reuses the dispatch key
`(2, "shared")` already held by the registered `cexView1`, does not fail:
the second form's entry is inserted, overwriting the first form's. -/
theorem add_view_collision_overwrites_cex :
    ((viewStoreEmpty.add_view 0 cexView1 none).add_view 0 cexView2 none).views.find
        (2, "shared")
      = some (cexView2, mkButton 2 "shared", some 180) := by
  rfl

/-- C1 (amended): `add_view` never fails on a dispatch-key collision;
after registering a form whose (single) dispatchable element has key
`(item.type, item.custom_id)`, the registry maps that key to the new
form's entry regardless of whether the key was already present —
last registration wins. -/
theorem add_view_last_registration_wins (s : ViewStore) (now : Nat) (view : View)
    (mid : Option Nat) (item : Item) (hc : view.children = [item])
    (hd : item.is_dispatchable = true) :
    (s.add_view now view mid).views.find (item.type, item.custom_id)
      = some (view, item, view.expires_at now) := by
  simp [ViewStore.add_view, hc, hd, Dict.find_set]

/-- C1 witness: the amended theorem applied to a registry that already
holds the key `(2, "shared")`. -/
theorem add_view_last_registration_wins_witness :
    cexView2.children = [mkButton 2 "shared"]
    ∧ (mkButton 2 "shared").is_dispatchable = true
    ∧ (storeWithV1.add_view 0 cexView2 none).views.find
        ((mkButton 2 "shared").type, (mkButton 2 "shared").custom_id)
      = some (cexView2, mkButton 2 "shared", cexView2.expires_at 0) :=
  ⟨rfl, rfl, add_view_last_registration_wins storeWithV1 0 cexView2 none
    (mkButton 2 "shared") rfl rfl⟩

/-- C3 counterexample: teardown is not idempotent. With `cexView1`
registered, a first `remove_view` succeeds but a second raises `KeyError`
(`pop` without a default), and a second `stop()` raises
`InvalidStateError` on re-resolving the already-resolved completion
future. -/
theorem remove_view_stop_twice_raise_cex :
    ((storeWithV1.remove_view cexView1).bind fun s => s.remove_view cexView1)
      = .error "KeyError"
    ∧ ((viewStop storeWithV1 cexView1 ⟨false, none⟩ true).bind fun p =>
        viewStop p.1 cexView1 p.2 true)
      = .error "InvalidStateError" :=
  ⟨rfl, rfl⟩

/-- C3 (amended): `remove_view` raises `KeyError` as soon as a
dispatchable child's key is absent from the registry (its `pop` has no
default), so a second `remove_view` for a form with a dispatchable child
raises instead of being a no-op; likewise a second `stop()` raises,
because `set_result` on the already-resolved completion future fails. -/
theorem remove_view_and_stop_not_idempotent (s : ViewStore) (view : View)
    (item : Item) (f : FutureState) (b : Bool) :
    (view.children = [item] → item.is_dispatchable = true →
      s.views.find (item.type, item.custom_id) = none →
      s.remove_view view = .error "KeyError")
    ∧ (f.done = true → f.set_result b = .error "InvalidStateError") := by
  constructor
  · intro hc hd hnone
    simp [ViewStore.remove_view, hc, hd, Dict.pop, hnone]
    rfl
  · intro hdone
    simp [FutureState.set_result, hdone]

/-- C3 witness: the amended theorem applied to the empty registry (the
state after a first successful `remove_view`) and to a resolved future. -/
theorem remove_view_and_stop_not_idempotent_witness :
    viewStoreEmpty.remove_view cexView1 = .error "KeyError"
    ∧ FutureState.set_result ⟨true, some false⟩ false = .error "InvalidStateError" :=
  ⟨(remove_view_and_stop_not_idempotent viewStoreEmpty cexView1 (mkButton 1 "shared")
      ⟨true, some false⟩ false).1 rfl rfl rfl,
   (remove_view_and_stop_not_idempotent viewStoreEmpty cexView1 (mkButton 1 "shared")
      ⟨true, some false⟩ false).2 rfl⟩

/-- C5: in `_scheduled_task`, a raised or failed `interaction_check` ends
the task silently — the handler is never invoked and the response channel
is untouched; when the check passes, the handler runs and exactly one
deferred acknowledgement is issued iff the response channel is still
unresponded after the handler returns. -/
theorem scheduled_task_check_and_default_ack (check : Except Unit Bool)
    (callback : Response → Response) (r : Response) :
    (check = .error () ∨ check = .ok false → scheduledTask check callback r = (false, r))
    ∧ (check = .ok true →
        (scheduledTask check callback r).1 = true
        ∧ (scheduledTask check callback r).2.defer_count
            = (callback r).defer_count + (if (callback r).responded then 0 else 1)
        ∧ (scheduledTask check callback r).2.responded = true) := by
  constructor
  · rintro (h | h) <;> subst h <;> simp [scheduledTask]
  · intro h
    subst h
    by_cases hr : (callback r).responded <;>
      simp [scheduledTask, hr, Response.defer]

/-- C5 witness: a passing check with a handler that does not respond
yields exactly one deferral; a failing check leaves everything untouched. -/
theorem scheduled_task_check_and_default_ack_witness :
    scheduledTask (.ok false) id ⟨false, 0⟩ = (false, ⟨false, 0⟩)
    ∧ (scheduledTask (.ok true) id ⟨false, 0⟩).2.defer_count
        = (id (⟨false, 0⟩ : Response)).defer_count + 1 :=
  ⟨(scheduled_task_check_and_default_ack (.ok false) id ⟨false, 0⟩).1 (Or.inr rfl),
   by
    have h := ((scheduled_task_check_and_default_ack (.ok true) id ⟨false, 0⟩).2 rfl).2.1
    simpa using h⟩

/-- C6 counterexample: a select holding exactly 25 options accepts a 26th
option; `append_option` succeeds and the options list grows to 26. -/
theorem append_option_26th_succeeds_cex :
    ((sel25.append_option opt26).map fun s => s.underlying.options.length) = .ok 26 := by
  rfl

/-- C6 (amended): `append_option` raises the capacity error only when the
select already holds strictly more than 25 options; with at most 25
options the append succeeds, so the boundary admits a 26th option
(rejection starts at the 27th), and on success the new option is appended
to the untouched existing options. -/
theorem append_option_boundary (s : Select) (o : SelectOption) :
    (s.underlying.options.length > 25 →
      s.append_option o = .error "maximum number of options already provided")
    ∧ (s.underlying.options.length ≤ 25 →
      (s.append_option o).map (fun t => t.underlying.options)
        = .ok (s.underlying.options ++ [o])) := by
  constructor
  · intro h
    simp [Select.append_option, h]
  · intro h
    simp [Select.append_option, Nat.not_lt_of_le h]
    rfl

/-- C6 witness: with 26 options present the capacity error fires; with 25
the append succeeds. -/
theorem append_option_boundary_witness :
    sel26.append_option opt26 = .error "maximum number of options already provided"
    ∧ ((sel25.append_option opt26).map fun t => t.underlying.options)
        = .ok (sel25.underlying.options ++ [opt26]) :=
  ⟨(append_option_boundary sel26 opt26).1 (by decide),
   (append_option_boundary sel25 opt26).2 (by decide)⟩

/-- C7 counterexample: `add_item` on a view that already has exactly 25
children succeeds, producing a view with 26 children — the 25-element
bound is not preserved by `add_item`. -/
theorem add_item_26th_succeeds_cex :
    ((view25.add_item (mkButton 99 "extra")).map fun v => v.children.length) = .ok 26 := by
  rfl

/-- C7 (amended): `__init_subclass__` does fail fast on 26 declared
elements, but `add_item` refuses only when the view already holds strictly
more than 25 children: on a view with at most 25 children it succeeds and
appends, so the bound reachable through `add_item` is 26, not 25. -/
theorem view_capacity_boundary (declared : List Item) (v : View) (item : Item) :
    (declared.length > 25 →
      viewInitSubclassCheck declared = .error "View cannot have more than 25 children")
    ∧ (v.children.length ≤ 25 →
      (v.add_item item).map (fun w => w.children) = .ok (v.children ++ [item]))
    ∧ (v.children.length > 25 →
      v.add_item item = .error "maximum number of children exceeded") := by
  refine ⟨fun h => ?_, fun h => ?_, fun h => ?_⟩
  · simp [viewInitSubclassCheck, h]
  · simp [View.add_item, Nat.not_lt_of_le h]
    rfl
  · simp [View.add_item, h]

/-- C7 witness: 26 declared elements are refused at class construction,
while `add_item` accepts a 26th child on a 25-child view. -/
theorem view_capacity_boundary_witness :
    viewInitSubclassCheck declared26 = .error "View cannot have more than 25 children"
    ∧ ((view25.add_item (mkButton 99 "extra")).map fun w => w.children)
        = .ok (view25.children ++ [mkButton 99 "extra"]) :=
  ⟨(view_capacity_boundary declared26 view25 (mkButton 99 "extra")).1 (by decide),
   (view_capacity_boundary declared26 view25 (mkButton 99 "extra")).2.1 (by decide)⟩

/-- C9: `Select.refresh_state` is idempotent — a second call with the same
interaction changes nothing — and each call overwrites `selected_values`
with the event's payload, the empty list when the payload carries none. -/
theorem refresh_state_idempotent_overwrite (s : Select) (i : Interaction) :
    (s.refresh_state i).refresh_state i = s.refresh_state i
    ∧ (s.refresh_state i).selected_values = i.data_values.getD [] :=
  ⟨rfl, rfl⟩

/-- C10: dispatching `update_from_message` at a message id with no
recorded association raises `KeyError` (the lookup is unguarded), it is
not a checked no-op. -/
theorem update_from_message_untracked_raises (s : ViewStore) (mid : Nat)
    (comps : List Component) (h : s.is_message_tracked mid = false) :
    s.update_from_message mid comps = .error "KeyError" := by
  unfold ViewStore.update_from_message
  unfold ViewStore.is_message_tracked at h
  cases hfind : Dict.find s.synced_message_views mid with
  | none => rfl
  | some v => rw [hfind] at h; simp at h

/-- C10 witness: the empty registry tracks no message. -/
theorem update_from_message_untracked_raises_witness :
    viewStoreEmpty.is_message_tracked 5 = false
    ∧ viewStoreEmpty.update_from_message 5 [] = .error "KeyError" :=
  ⟨rfl, update_from_message_untracked_raises viewStoreEmpty 5 [] rfl⟩

/-! ## C8: layout -/

/-- A dispatchable button-kind item with a layout group. -/
def itemG (n : Nat) (g : Option Nat) (cid : String) : Item :=
  { type := 2, custom_id := cid, group_id := g, dispatchable := true,
    handler := some n, selected_values := [], payload := 0 }

def view12 : View := ⟨8, some 180, (List.range 12).map fun n => mkButton n (toString n)⟩

def viewGrouped : View :=
  ⟨9, some 180,
    [itemG 1 none "d", itemG 2 (some 1) "a", itemG 3 none "e",
     itemG 4 (some 1) "b", itemG 5 (some 1) "c"]⟩

/-- C8: `to_components` layout. A view with 12 ungrouped items yields
rows of sizes [5, 5, 2] in insertion order; a view with three items in
group 1 and two ungrouped items yields group 1's row before the ungrouped
row (stable order inside each); and in general every produced row holds
at most 5 items. -/
theorem to_components_grouping_and_chunking :
    view12.to_components =
      [[mkButton 0 "0", mkButton 1 "1", mkButton 2 "2", mkButton 3 "3", mkButton 4 "4"],
       [mkButton 5 "5", mkButton 6 "6", mkButton 7 "7", mkButton 8 "8", mkButton 9 "9"],
       [mkButton 10 "10", mkButton 11 "11"]]
    ∧ viewGrouped.to_components =
      [[itemG 2 (some 1) "a", itemG 4 (some 1) "b", itemG 5 (some 1) "c"],
       [itemG 1 none "d", itemG 3 none "e"]]
    ∧ ∀ (v : View), ∀ row ∈ v.to_components, row.length ≤ 5 := by
  refine ⟨by decide, by decide, ?_⟩
  intro v row hrow
  unfold View.to_components at hrow
  obtain ⟨g, _, hg⟩ := List.mem_flatMap.mp hrow
  unfold chunkGroup at hg
  by_cases hlen : g.length ≤ 5
  · rw [if_pos hlen] at hg
    simp only [List.mem_singleton] at hg
    exact hg ▸ hlen
  · rw [if_neg hlen] at hg
    obtain ⟨i, _, hi⟩ := List.mem_map.mp hg
    subst hi
    rw [List.length_take]
    exact Nat.min_le_left _ _

/-- C8 witness: the general row bound applied to the 12-item view's last
row. -/
theorem to_components_grouping_and_chunking_witness :
    [mkButton 10 "10", mkButton 11 "11"].length ≤ 5 :=
  to_components_grouping_and_chunking.2.2 view12 [mkButton 10 "10", mkButton 11 "11"]
    (by decide)

/-! ## C2: sliding expiration -/

def i0 : Interaction := ⟨some ["v1"], false⟩

/-- C2: a dispatch that finds its key after the lazy sweep stores back the
same view and the state-refreshed item under the expiry `now + T` (the
form's timeout, re-evaluated now: sliding expiration) and schedules the
handler task; while a dispatch whose stored expiry has been reached
(`expiry ≤ now`) drops the entry in the sweep and then behaves exactly
like a miss — the registry is just swept, nothing is refreshed, and no
task is scheduled. -/
theorem dispatch_sliding_expiration_expired_is_miss (s : ViewStore) (now ct : Nat)
    (cid : String) (i : Interaction) :
    (∀ view item e T,
      Dict.find (s.verify_integrity now).views (ct, cid) = some (view, item, e) →
      view.timeout = some T → T ≠ 0 →
      Dict.find ((s.dispatch now ct cid i).store).views (ct, cid)
          = some (view, item.refresh_state i, some (now + T))
      ∧ (s.dispatch now ct cid i).scheduled = some (view, item.refresh_state i, i))
    ∧ (∀ view item x, s.views.WF →
      s.views.find (ct, cid) = some (view, item, some x) → x ≤ now →
      s.dispatch now ct cid i = ⟨s.verify_integrity now, none⟩
      ∧ Dict.find (s.verify_integrity now).views (ct, cid) = none) := by
  constructor
  · intro view item e T hfind hT hT0
    have hexp : view.expires_at now = some (now + T) := by
      simp [View.expires_at, hT, hT0]
    constructor
    · simp [ViewStore.dispatch, hfind, Dict.find_set, hexp]
    · simp [ViewStore.dispatch, hfind]
  · intro view item x hw hfind hx
    have hgone : Dict.find (s.verify_integrity now).views (ct, cid) = none := by
      unfold ViewStore.verify_integrity
      have := Dict.find_filter s.views
        (fun p => match p.2.2.2 with | none => true | some expiry => now < expiry)
        (ct, cid) (view, item, some x) hw hfind
      simpa [Nat.not_lt_of_le hx] using this
    constructor
    · simp [ViewStore.dispatch, hgone]
    · exact hgone

/-- C2 witness: with `cexView1` (timeout 180) registered at time 0, a
dispatch at time 10 finds the key and re-arms its expiry to 190 while
scheduling the task; a dispatch at time 500 (past the stored expiry 180)
is identical to a miss. -/
theorem dispatch_sliding_expiration_expired_is_miss_witness :
    Dict.find ((storeWithV1.dispatch 10 2 "shared" i0).store).views (2, "shared")
        = some (cexView1, (mkButton 1 "shared").refresh_state i0, some (10 + 180))
    ∧ (storeWithV1.dispatch 10 2 "shared" i0).scheduled
        = some (cexView1, (mkButton 1 "shared").refresh_state i0, i0)
    ∧ storeWithV1.dispatch 500 2 "shared" i0 = ⟨storeWithV1.verify_integrity 500, none⟩
    ∧ Dict.find (storeWithV1.verify_integrity 500).views (2, "shared") = none := by
  have h1 := (dispatch_sliding_expiration_expired_is_miss storeWithV1 10 2 "shared" i0).1
    cexView1 (mkButton 1 "shared") (some 180) 180 (by decide) rfl (by decide)
  have h2 := (dispatch_sliding_expiration_expired_is_miss storeWithV1 500 2 "shared" i0).2
    cexView1 (mkButton 1 "shared") 180 (by unfold Dict.WF; decide) (by decide) (by decide)
  exact ⟨h1.1, h1.2, h2.1, h2.2⟩

/-! ## C4: reconciliation -/

/-- The dispatch-key predicate used to characterise the `old_state`
lookup. -/
def keyMatches (k : Nat × String) (it : Item) : Bool :=
  (it.type, it.custom_id) = k

/-- A dict built by folding `set` over items finds the last item carrying
the key, and falls back to the base dict. -/
theorem Dict.find_foldl_set (l : List Item) (d : Dict (Nat × String) Item)
    (k : Nat × String) :
    Dict.find (l.foldl (fun d it => d.set (it.type, it.custom_id) it) d) k
      = match l.reverse.find? (keyMatches k) with
        | some it => some it
        | none => d.find k := by
  induction l generalizing d with
  | nil => simp
  | cons x xs ih =>
    simp only [List.foldl_cons, List.reverse_cons]
    rw [ih, List.find?_append]
    cases hxs : xs.reverse.find? (keyMatches k) with
    | some it => simp
    | none =>
      rw [Dict.find_set]
      by_cases hk : (x.type, x.custom_id) = k
      · simp [keyMatches, hk]
      · simp [keyMatches, hk]

/-- `find?` returns the unique element satisfying the predicate. -/
theorem find?_unique {α : Type} (l : List α) (p : α → Bool) (x : α)
    (hx : x ∈ l) (hpx : p x = true) (huniq : ∀ y ∈ l, p y = true → y = x) :
    l.find? p = some x := by
  induction l with
  | nil => cases hx
  | cons a as ih =>
    by_cases hpa : p a = true
    · have ha : a = x := huniq a (List.mem_cons_self a as) hpa
      subst ha
      simp [List.find?, hpx]
    · have hxas : x ∈ as := by
        cases List.mem_cons.mp hx with
        | inl h => exact absurd (h ▸ hpx) hpa
        | inr h => exact h
      rw [List.find?_cons_of_neg _ (by simpa using hpa)]
      exact ih hxas fun y hy hp => huniq y (List.mem_cons_of_mem a hy) hp

/-- The `old_state` comprehension finds a dispatchable child whose
dispatch key is unique among the view's dispatchable children. -/
theorem oldState_find_unique (children : List Item) (E : Item)
    (hmem : E ∈ children) (hd : E.is_dispatchable = true)
    (huniq : ∀ F ∈ children, F.is_dispatchable = true →
      (F.type, F.custom_id) = (E.type, E.custom_id) → F = E) :
    Dict.find (oldState children) (E.type, E.custom_id) = some E := by
  unfold oldState
  rw [Dict.find_foldl_set]
  have hfind : ((children.filter fun it => it.is_dispatchable).reverse).find?
      (keyMatches (E.type, E.custom_id)) = some E := by
    apply find?_unique
    · rw [List.mem_reverse, List.mem_filter]
      exact ⟨hmem, hd⟩
    · simp [keyMatches]
    · intro y hy hp
      rw [List.mem_reverse, List.mem_filter] at hy
      exact huniq y hy.1 hy.2 (by simpa [keyMatches] using hp)
  rw [hfind]

/-- C4: reconciliation preserves identity. For a descriptor at position
`j` of the flattened incoming list whose key matches the view's (unique)
dispatchable child `E`, the rebuilt element list holds, at that same
position, `E` itself with its component refreshed — same handler
reference, same selection state — while a descriptor whose key has no
current match yields a newly synthesized element carrying no handler.
The whole children list is the result of one assignment of the freshly
built list. -/
theorem refresh_preserves_identity (v : View) (comps : List Component) (j : Nat)
    (rc : RawComponent) (hj : (walkAllComponents comps)[j]? = some rc) :
    (∀ E : Item, E ∈ v.children → E.is_dispatchable = true →
      (∀ F ∈ v.children, F.is_dispatchable = true →
        (F.type, F.custom_id) = (E.type, E.custom_id) → F = E) →
      rc.type = E.type → rc.custom_id = some E.custom_id →
      (v.refresh comps).children[j]? = some (E.refresh_component rc)
      ∧ (E.refresh_component rc).handler = E.handler
      ∧ (E.refresh_component rc).selected_values = E.selected_values)
    ∧ ((∀ cid, rc.custom_id = some cid →
        Dict.find (oldState v.children) (rc.type, cid) = none) →
      (v.refresh comps).children[j]? = some (componentToItem rc)
      ∧ (componentToItem rc).handler = none) := by
  constructor
  · intro E hmem hd huniq htype hcid
    have hold := oldState_find_unique v.children E hmem hd huniq
    refine ⟨?_, rfl, rfl⟩
    simp [View.refresh, List.getElem?_map, hj, refreshStep, hcid, htype, hold]
  · intro hmiss
    refine ⟨?_, rfl⟩
    cases hc : rc.custom_id with
    | none => simp [View.refresh, List.getElem?_map, hj, refreshStep, hc]
    | some cid => simp [View.refresh, List.getElem?_map, hj, refreshStep, hc, hmiss cid hc]

/-- C4 witness: refreshing `cexView1` with a descriptor list whose first
descriptor reuses the key `(2, "shared")` and whose second is new keeps
the original item (handler tag `some 1`) at position 0 and synthesizes a
handlerless item at position 1. -/
theorem refresh_preserves_identity_witness :
    (cexView1.refresh [.leaf ⟨2, some "shared", 7⟩, .leaf ⟨2, some "new", 3⟩]).children[0]?
        = some ((mkButton 1 "shared").refresh_component ⟨2, some "shared", 7⟩)
    ∧ ((mkButton 1 "shared").refresh_component ⟨2, some "shared", 7⟩).handler
        = (mkButton 1 "shared").handler
    ∧ (cexView1.refresh [.leaf ⟨2, some "shared", 7⟩, .leaf ⟨2, some "new", 3⟩]).children[1]?
        = some (componentToItem ⟨2, some "new", 3⟩)
    ∧ (componentToItem ⟨2, some "new", 3⟩).handler = none := by
  have hA := (refresh_preserves_identity cexView1
      [.leaf ⟨2, some "shared", 7⟩, .leaf ⟨2, some "new", 3⟩] 0 ⟨2, some "shared", 7⟩ rfl).1
    (mkButton 1 "shared") (by decide) rfl (by decide) rfl rfl
  have hB := (refresh_preserves_identity cexView1
      [.leaf ⟨2, some "shared", 7⟩, .leaf ⟨2, some "new", 3⟩] 1 ⟨2, some "new", 3⟩ rfl).2
    (by intro cid hc; cases hc; decide)
  exact ⟨hA.1, hA.2.1, hB.1, hB.2⟩

end DiscordUI
